import Mathlib

/-!
Verification of the flow-scoped access-control core of the UDP puncture
transport (`ockam_transport_udp/src/puncture/puncture/options.rs`).

The file shallowly embeds `UdpPunctureOptions` and its three operations
(`new`, `producer_flow_control_id`, `setup_flow_control`,
`create_receiver_outgoing_access_control`) together with the flow-control
registry (`FlowControls`) they call into.  The registry and the
access-control gate live in `ockam_core`, which is not part of this
snapshot, so those definitions are modelled from the specification; the
options code is translated directly from the source.

Mutation of the shared registry is modelled by explicit state passing:
`setup_flow_control` takes the registry before the call and returns the
registry after it, together with its `Result` value.  The sequence of
registry calls the operation makes is additionally captured as a trace of
`RegistryOp` values so that ordering and call-occurrence properties can be
stated; `setup_flow_control_eq_applyOps` ties the two views together.
-/

/-- Address: opaque identifier naming one endpoint in the messaging
runtime, compared by value. -/
structure Address where
  name : Nat
deriving DecidableEq, Repr

/-- FlowControlId: opaque token naming one logical flow, compared by
value. -/
structure FlowControlId where
  token : Nat
deriving DecidableEq, Repr

/-- Modelled from the spec: a Flow Entry of the registry
(`ockam_core::flow_control`, not under src/): producer address, linked
addresses, optional spawner flow id and the consumer set. -/
structure FlowEntry where
  producer_address : Address
  linked_addresses : List Address
  spawner_flow_id : Option FlowControlId
  consumers : List Address
deriving DecidableEq, Repr

/-- Modelled from the spec: the Flow Registry (`ockam_core`s
`FlowControls`, not under src/), a mapping from flow ids to flow entries.
The reverse index of the spec is an optimization; its semantics is the
scan performed by `find_flow_control_with_producer_address` below. -/
structure FlowControls where
  entries : List (FlowControlId × FlowEntry)
deriving DecidableEq, Repr

/-- Lookup of the entry registered for a flow id (first binding wins). -/
def FlowControls.lookup (fc : FlowControls) (flow_id : FlowControlId) :
    Option FlowEntry :=
  (fc.entries.find? (fun p => decide (p.1 = flow_id))).map (fun p => p.2)

/-- Modelled from the spec: `add_producer(owner_address, flow_id,
spawner_flow_id, linked_addresses)` creates a new Flow Entry rooted at
`owner_address` for `flow_id`, with an empty consumer set.  The spec
leaves the behaviour on a colliding flow id open (§9); ids are
contractually fresh per call site, and this model inserts the new binding
in front, so it shadows any (contract-violating) older binding. -/
def FlowControls.add_producer (fc : FlowControls) (owner_address : Address)
    (flow_id : FlowControlId) (spawner_flow_id : Option FlowControlId)
    (linked_addresses : List Address) : FlowControls :=
  { entries := (flow_id,
      { producer_address := owner_address
        linked_addresses := linked_addresses
        spawner_flow_id := spawner_flow_id
        consumers := [] }) :: fc.entries }

/-- Modelled from the spec: `add_consumer(address, flow_id)` inserts
`address` into the consumer set of the entry for `flow_id` if that flow id
exists; if the flow id is unknown this is a silent no-op. -/
def FlowControls.add_consumer (fc : FlowControls) (address : Address)
    (flow_id : FlowControlId) : FlowControls :=
  { entries := fc.entries.map (fun p =>
      if p.1 = flow_id then
        (p.1, { p.2 with consumers :=
          if address ∈ p.2.consumers then p.2.consumers
          else address :: p.2.consumers })
      else p) }

/-- Modelled from the spec: reverse lookup returning the flow control
whose producer or linked-address set contains `address` (the Rust function
returns the `FlowControl` object; callers project out its flow id). -/
def FlowControls.find_flow_control_with_producer_address
    (fc : FlowControls) (address : Address) :
    Option (FlowControlId × FlowEntry) :=
  fc.entries.find? (fun p =>
    decide (p.2.producer_address = address ∨ address ∈ p.2.linked_addresses))

/-- An outgoing message as the gate sees it: the flow id the message is
tagged with and its destination address. -/
structure OutgoingMessage where
  flow_id : FlowControlId
  destination : Address
deriving DecidableEq, Repr

/-- Decision of an access-control gate. -/
inductive AccessDecision where
  | allow
  | deny
deriving DecidableEq, Repr

/-- The outgoing access-control capability: `allowAll` is `ockam_core`s
`AllowAll`; `flowGated` models the `FlowControlOutgoingAccessControl`
variant the source leaves commented out (carrying the tunnel flow id it
would be constructed with). -/
inductive OutgoingAccessControl where
  | allowAll
  | flowGated (flow_control_id : FlowControlId)
deriving DecidableEq, Repr

/-- Modelled from the spec: the gate check (`ockam_core`, not under src/).
`AllowAll` always allows; `FlowGated` allows iff the destination is in the
asserted flow's consumer set or equals the flow's producer or one of its
linked addresses, and denies otherwise (including an unknown flow id). -/
def OutgoingAccessControl.check (gate : OutgoingAccessControl)
    (fc : FlowControls) (msg : OutgoingMessage) : AccessDecision :=
  match gate with
  | .allowAll => .allow
  | .flowGated _ =>
    match fc.lookup msg.flow_id with
    | some entry =>
      if msg.destination ∈ entry.consumers ∨
          msg.destination = entry.producer_address ∨
          msg.destination ∈ entry.linked_addresses then .allow else .deny
    | none => .deny

/-- The per-tunnel `Addresses` bundle (accessors `sender_address`,
`receiver_address`, `remote_address` become fields). -/
structure Addresses where
  sender_address : Address
  receiver_address : Address
  remote_address : Address
deriving DecidableEq, Repr

/-- Opaque stand-in for `ockam_core::Error`. -/
structure OckamError where
  code : Nat
deriving DecidableEq, Repr

/-- `UdpPunctureOptions`: the tunnel's own flow id and the (unused)
spawner flow id field. -/
structure UdpPunctureOptions where
  flow_control_id : FlowControlId
  spawner_flow_control_id : Option FlowControlId
deriving DecidableEq, Repr

/-- `UdpPunctureOptions::new`.  The call to
`FlowControls::generate_flow_control_id()` (random generation, not under
src/) is modelled by passing the freshly generated id in; `new` stores
exactly that id and leaves the spawner linkage unset. -/
def UdpPunctureOptions.new (fresh_id : FlowControlId) : UdpPunctureOptions :=
  { flow_control_id := fresh_id
    spawner_flow_control_id := none }

/-- `UdpPunctureOptions::producer_flow_control_id`: clone of the stored
flow id. -/
def UdpPunctureOptions.producer_flow_control_id
    (self : UdpPunctureOptions) : FlowControlId :=
  self.flow_control_id

/-- `UdpPunctureOptions::setup_flow_control`, translated from the source:
first, if the reverse lookup finds a flow control for `next`, register the
remote address as a consumer of that flow id; then unconditionally
register the receiver address as producer of the options' own flow id
with the sender address as single linked address and no spawner id; return
`Ok(())`.  Registry mutation is explicit state passing: the result pairs
the returned `Result` with the registry after the call. -/
def UdpPunctureOptions.setup_flow_control (self : UdpPunctureOptions)
    (flow_controls : FlowControls) (addresses : Addresses)
    (next : Address) : Except OckamError Unit × FlowControls :=
  let flow_controls :=
    match (flow_controls.find_flow_control_with_producer_address next).map
        (fun x => x.1) with
    | some flow_control_id =>
      flow_controls.add_consumer addresses.remote_address flow_control_id
    | none => flow_controls
  let flow_controls :=
    flow_controls.add_producer addresses.receiver_address
      self.flow_control_id none [addresses.sender_address]
  (Except.ok (), flow_controls)

/-- A registry call made by `setup_flow_control`, recorded with its
arguments. -/
inductive RegistryOp where
  | addConsumer (address : Address) (flow_control_id : FlowControlId)
  | addProducer (address : Address) (flow_control_id : FlowControlId)
      (spawner_flow_id : Option FlowControlId)
      (linked_addresses : List Address)
deriving DecidableEq, Repr

/-- Whether a recorded registry call is an `add_producer` call. -/
def RegistryOp.isProducerOp : RegistryOp → Bool
  | .addProducer _ _ _ _ => true
  | .addConsumer _ _ => false

/-- Whether a recorded registry call is an `add_consumer` call. -/
def RegistryOp.isConsumerOp : RegistryOp → Bool
  | .addProducer _ _ _ _ => false
  | .addConsumer _ _ => true

/-- The trace of registry calls `setup_flow_control` makes, in source
order: the conditional `add_consumer` of the chaining branch first, then
the unconditional `add_producer`.  The reverse lookup is evaluated on the
registry as it is at entry, as in the source. -/
def UdpPunctureOptions.setup_flow_control_ops (self : UdpPunctureOptions)
    (flow_controls : FlowControls) (addresses : Addresses)
    (next : Address) : List RegistryOp :=
  (match (flow_controls.find_flow_control_with_producer_address next).map
      (fun x => x.1) with
   | some flow_control_id =>
     [RegistryOp.addConsumer addresses.remote_address flow_control_id]
   | none => []) ++
  [RegistryOp.addProducer addresses.receiver_address self.flow_control_id
    none [addresses.sender_address]]

/-- Interpretation of one recorded registry call on a registry state. -/
def FlowControls.applyOp (fc : FlowControls) : RegistryOp → FlowControls
  | .addConsumer address flow_id => fc.add_consumer address flow_id
  | .addProducer address flow_id spawner linked =>
    fc.add_producer address flow_id spawner linked

/-- Interpretation of a trace of registry calls, left to right. -/
def FlowControls.applyOps (fc : FlowControls) :
    List RegistryOp → FlowControls
  | [] => fc
  | op :: ops => (fc.applyOp op).applyOps ops

/-- `UdpPunctureOptions::create_receiver_outgoing_access_control`,
translated from the source: the registry parameter is unused and the
result is the `AllowAll` gate (the gated construction is commented out in
the source). -/
def UdpPunctureOptions.create_receiver_outgoing_access_control
    (self : UdpPunctureOptions) (flow_controls : FlowControls) :
    OutgoingAccessControl :=
  OutgoingAccessControl.allowAll

/-- The state-passing and the trace view of `setup_flow_control` agree:
the registry it returns is the interpretation of its recorded trace. -/
theorem setup_flow_control_eq_applyOps (self : UdpPunctureOptions)
    (fc : FlowControls) (addresses : Addresses) (next : Address) :
    (self.setup_flow_control fc addresses next).2 =
      fc.applyOps (self.setup_flow_control_ops fc addresses next) := by
  unfold UdpPunctureOptions.setup_flow_control
    UdpPunctureOptions.setup_flow_control_ops
  cases h : (fc.find_flow_control_with_producer_address next).map
      (fun x => x.1) with
  | none => simp [h, FlowControls.applyOps, FlowControls.applyOp]
  | some fid => simp [h, FlowControls.applyOps, FlowControls.applyOp]

/-- The entry registered for the options' own flow id after
`setup_flow_control` is the tunnel's new flow: rooted at the receiver
address, linked to the sender address, no spawner id, empty consumers. -/
theorem lookup_own_after_setup (self : UdpPunctureOptions)
    (fc : FlowControls) (addresses : Addresses) (next : Address) :
    ((self.setup_flow_control fc addresses next).2).lookup
        self.flow_control_id =
      some { producer_address := addresses.receiver_address
             linked_addresses := [addresses.sender_address]
             spawner_flow_id := none
             consumers := [] } := by
  unfold UdpPunctureOptions.setup_flow_control
  cases h : (fc.find_flow_control_with_producer_address next).map
      (fun x => x.1) <;>
    simp [h, FlowControls.add_producer, FlowControls.lookup, List.find?]

/-- C1: for every registry state, `create_receiver_outgoing_access_control`
returns the `AllowAll` gate, and the returned gate's check allows every
outgoing message, including a message tagged with an arbitrary,
never-registered flow id destined to an arbitrary address. -/
theorem C1_receiver_gate_is_allow_all (self : UdpPunctureOptions)
    (fc check_fc : FlowControls) (msg : OutgoingMessage) :
    self.create_receiver_outgoing_access_control fc =
      OutgoingAccessControl.allowAll ∧
    (self.create_receiver_outgoing_access_control fc).check check_fc msg =
      AccessDecision.allow :=
  ⟨rfl, rfl⟩

/-- C2: for every registry state, addresses bundle and next-hop address,
`setup_flow_control` registers the receiver address as the producer of the
options' own flow id, with the sender address as the single linked address
and the spawner flow id unset, unconditionally (whether or not the
chaining branch was taken). -/
theorem C2_unconditional_producer_registration (self : UdpPunctureOptions)
    (fc : FlowControls) (addresses : Addresses) (next : Address) :
    ((self.setup_flow_control fc addresses next).2).lookup
        self.flow_control_id =
      some { producer_address := addresses.receiver_address
             linked_addresses := [addresses.sender_address]
             spawner_flow_id := none
             consumers := [] } :=
  lookup_own_after_setup self fc addresses next

/-- C3: if the reverse producer lookup finds an upstream flow id for the
next-hop address, `setup_flow_control` registers the remote address as a
consumer of exactly that upstream flow id — the registry-call trace is
that single consumer registration followed by the producer registration of
the options' own flow id. -/
theorem C3_chaining_consumer_of_upstream (self : UdpPunctureOptions)
    (fc : FlowControls) (addresses : Addresses) (next : Address)
    (upstream : FlowControlId)
    (hfound : (fc.find_flow_control_with_producer_address next).map
        (fun x => x.1) = some upstream) :
    self.setup_flow_control_ops fc addresses next =
      [RegistryOp.addConsumer addresses.remote_address upstream,
       RegistryOp.addProducer addresses.receiver_address
         self.flow_control_id none [addresses.sender_address]] := by
  unfold UdpPunctureOptions.setup_flow_control_ops
  simp [hfound]

/-- Witness for C3 at a concrete input: a registry with one flow rooted at
address 10, next hop 10, so the chaining branch is taken. -/
theorem C3_witness :
    ((FlowControls.mk [(FlowControlId.mk 0,
        FlowEntry.mk (Address.mk 10) [] none
          [])]).find_flow_control_with_producer_address
        (Address.mk 10)).map (fun x => x.1) = some (FlowControlId.mk 0) ∧
    (UdpPunctureOptions.new (FlowControlId.mk 1)).setup_flow_control_ops
        (FlowControls.mk [(FlowControlId.mk 0,
          FlowEntry.mk (Address.mk 10) [] none [])])
        (Addresses.mk (Address.mk 2) (Address.mk 3) (Address.mk 4))
        (Address.mk 10) =
      [RegistryOp.addConsumer (Address.mk 4) (FlowControlId.mk 0),
       RegistryOp.addProducer (Address.mk 3) (FlowControlId.mk 1) none
         [Address.mk 2]] :=
  ⟨by decide,
   C3_chaining_consumer_of_upstream (UdpPunctureOptions.new
      (FlowControlId.mk 1))
    (FlowControls.mk [(FlowControlId.mk 0,
      FlowEntry.mk (Address.mk 10) [] none [])])
    (Addresses.mk (Address.mk 2) (Address.mk 3) (Address.mk 4))
    (Address.mk 10) (FlowControlId.mk 0) (by decide)⟩

/-- C4: if the reverse producer lookup finds nothing for the next-hop
address, `setup_flow_control` performs no consumer registration: the call
trace is exactly the one producer registration, the call returns `Ok`, the
entry of every other flow id is unchanged and the only new binding is the
tunnel's own flow rooted at the receiver address linked to the sender
address. -/
theorem C4_no_chaining_is_pure_frame (self : UdpPunctureOptions)
    (fc : FlowControls) (addresses : Addresses) (next : Address)
    (hnone : fc.find_flow_control_with_producer_address next = none) :
    (self.setup_flow_control fc addresses next).1 = Except.ok () ∧
    self.setup_flow_control_ops fc addresses next =
      [RegistryOp.addProducer addresses.receiver_address
        self.flow_control_id none [addresses.sender_address]] ∧
    (∀ fid : FlowControlId, fid ≠ self.flow_control_id →
      ((self.setup_flow_control fc addresses next).2).lookup fid =
        fc.lookup fid) ∧
    ((self.setup_flow_control fc addresses next).2).lookup
        self.flow_control_id =
      some { producer_address := addresses.receiver_address
             linked_addresses := [addresses.sender_address]
             spawner_flow_id := none
             consumers := [] } := by
  refine ⟨rfl, ?_, ?_, lookup_own_after_setup self fc addresses next⟩
  · unfold UdpPunctureOptions.setup_flow_control_ops
    simp [hnone]
  · intro fid hne
    unfold UdpPunctureOptions.setup_flow_control
    simp [hnone, FlowControls.add_producer, FlowControls.lookup,
      List.find?, Ne.symm hne]

/-- Witness for C4 at a concrete input: the empty registry, where the
reverse lookup necessarily fails. -/
theorem C4_witness :
    (FlowControls.mk []).find_flow_control_with_producer_address
        (Address.mk 10) = none ∧
    ((UdpPunctureOptions.new (FlowControlId.mk 1)).setup_flow_control
        (FlowControls.mk [])
        (Addresses.mk (Address.mk 2) (Address.mk 3) (Address.mk 4))
        (Address.mk 10)).1 = Except.ok () ∧
    (UdpPunctureOptions.new (FlowControlId.mk 1)).setup_flow_control_ops
        (FlowControls.mk [])
        (Addresses.mk (Address.mk 2) (Address.mk 3) (Address.mk 4))
        (Address.mk 10) =
      [RegistryOp.addProducer (Address.mk 3) (FlowControlId.mk 1) none
        [Address.mk 2]] ∧
    (∀ fid : FlowControlId, fid ≠ FlowControlId.mk 1 →
      (((UdpPunctureOptions.new (FlowControlId.mk 1)).setup_flow_control
          (FlowControls.mk [])
          (Addresses.mk (Address.mk 2) (Address.mk 3) (Address.mk 4))
          (Address.mk 10)).2).lookup fid =
        (FlowControls.mk []).lookup fid) ∧
    (((UdpPunctureOptions.new (FlowControlId.mk 1)).setup_flow_control
        (FlowControls.mk [])
        (Addresses.mk (Address.mk 2) (Address.mk 3) (Address.mk 4))
        (Address.mk 10)).2).lookup (FlowControlId.mk 1) =
      some { producer_address := Address.mk 3
             linked_addresses := [Address.mk 2]
             spawner_flow_id := none
             consumers := [] } :=
  ⟨by decide,
   C4_no_chaining_is_pure_frame (UdpPunctureOptions.new (FlowControlId.mk 1))
    (FlowControls.mk [])
    (Addresses.mk (Address.mk 2) (Address.mk 3) (Address.mk 4))
    (Address.mk 10) (by decide)⟩

/-- The ordering property asserted of the registry-call trace: every
`add_producer` call occurs strictly before every `add_consumer` call, so
there is no point at which a consumer link exists but the producer
registration has not happened. -/
def producerBeforeEveryConsumer (ops : List RegistryOp) : Prop :=
  ∀ i j : Fin ops.length, (ops.get i).isConsumerOp = true →
    (ops.get j).isProducerOp = true → (j : Nat) < (i : Nat)

instance (ops : List RegistryOp) :
    Decidable (producerBeforeEveryConsumer ops) := by
  unfold producerBeforeEveryConsumer
  infer_instance

/-- C5 counterexample: with a registry holding one flow rooted at address
10 and next hop 10 the chaining branch is taken, and the trace of
`setup_flow_control` is the `add_consumer` call first, then the
`add_producer` call — the producer registration is not performed before
the consumer registration. -/
theorem C5_counterexample :
    ¬ producerBeforeEveryConsumer
      ((UdpPunctureOptions.new (FlowControlId.mk 1)).setup_flow_control_ops
        (FlowControls.mk [(FlowControlId.mk 5,
          FlowEntry.mk (Address.mk 10) [] none [])])
        (Addresses.mk (Address.mk 12) (Address.mk 13) (Address.mk 14))
        (Address.mk 10)) := by
  decide

/-- C5 amended: in `setup_flow_control` the conditional consumer
registration is performed before the producer registration — the trace is
a (possibly empty) list of consumer registrations followed by the single
producer registration of the options' own flow id. -/
theorem C5_consumer_registration_precedes_producer
    (self : UdpPunctureOptions) (fc : FlowControls)
    (addresses : Addresses) (next : Address) :
    ∃ consumer_ops : List RegistryOp,
      self.setup_flow_control_ops fc addresses next =
        consumer_ops ++
          [RegistryOp.addProducer addresses.receiver_address
            self.flow_control_id none [addresses.sender_address]] ∧
      ∀ op ∈ consumer_ops, op.isConsumerOp = true := by
  unfold UdpPunctureOptions.setup_flow_control_ops
  cases h : (fc.find_flow_control_with_producer_address next).map
      (fun x => x.1) with
  | none => exact ⟨[], by simp⟩
  | some fid =>
    refine ⟨[RegistryOp.addConsumer addresses.remote_address fid], ?_, ?_⟩
    · simp [h]
    · intro op hop
      simp only [List.mem_singleton] at hop
      subst hop
      rfl

/-- C6: `setup_flow_control` always returns `Ok(())`, whatever the
registry state, addresses bundle and next-hop address, and whether or not
the chaining branch is taken. -/
theorem C6_setup_flow_control_returns_ok (self : UdpPunctureOptions)
    (fc : FlowControls) (addresses : Addresses) (next : Address) :
    (self.setup_flow_control fc addresses next).1 = Except.ok () := rfl

/-- C7: `new` stores exactly the one freshly generated id with the spawner
linkage unset; `producer_flow_control_id` returns exactly the stored id
for every options value; and since every operation takes the options value
immutably, the producer registration any later `setup_flow_control` call
emits carries exactly the construction-time id, and the gate construction
leaves it untouched. -/
theorem C7_options_own_one_immutable_id (fresh_id : FlowControlId) :
    (UdpPunctureOptions.new fresh_id).flow_control_id = fresh_id ∧
    (UdpPunctureOptions.new fresh_id).spawner_flow_control_id = none ∧
    (UdpPunctureOptions.new fresh_id).producer_flow_control_id = fresh_id ∧
    (∀ self : UdpPunctureOptions,
      self.producer_flow_control_id = self.flow_control_id) ∧
    (∀ (fc : FlowControls) (addresses : Addresses) (next : Address),
      RegistryOp.addProducer addresses.receiver_address fresh_id none
          [addresses.sender_address] ∈
        (UdpPunctureOptions.new fresh_id).setup_flow_control_ops
          fc addresses next) ∧
    (∀ fc : FlowControls,
      (UdpPunctureOptions.new
          fresh_id).create_receiver_outgoing_access_control fc =
        OutgoingAccessControl.allowAll) := by
  refine ⟨rfl, rfl, rfl, fun _ => rfl, ?_, fun _ => rfl⟩
  intro fc addresses next
  unfold UdpPunctureOptions.setup_flow_control_ops
  cases h : (fc.find_flow_control_with_producer_address next).map
      (fun x => x.1) <;>
    simp [h, UdpPunctureOptions.new]

/-- C9: the gate returned by `create_receiver_outgoing_access_control` is
independent of the registry: for any two registry states (including one
obtained from the other by an arbitrary sequence of registry mutations),
the returned gates are equal and decide every message identically. -/
theorem C9_gate_independent_of_registry (self : UdpPunctureOptions)
    (fc1 fc2 : FlowControls) :
    self.create_receiver_outgoing_access_control fc1 =
      self.create_receiver_outgoing_access_control fc2 ∧
    (∀ ops : List RegistryOp,
      self.create_receiver_outgoing_access_control (fc1.applyOps ops) =
        self.create_receiver_outgoing_access_control fc1) ∧
    ∀ (check_fc : FlowControls) (msg : OutgoingMessage),
      (self.create_receiver_outgoing_access_control fc1).check
          check_fc msg =
        (self.create_receiver_outgoing_access_control fc2).check
          check_fc msg :=
  ⟨rfl, fun _ => rfl, fun _ _ => rfl⟩

/-- C10: nothing in `UdpPunctureOptions` enforces the exactly-once
contract of `setup_flow_control`: after a first call has registered the
options' own flow id (its lookup now succeeds), a second call on the same
options value still emits an `add_producer` call with that same flow id —
the duplicate-registration condition. -/
theorem C10_second_call_repeats_add_producer (self : UdpPunctureOptions)
    (fc : FlowControls) (a1 a2 : Addresses) (n1 n2 : Address) :
    ((self.setup_flow_control fc a1 n1).2).lookup self.flow_control_id ≠
      none ∧
    RegistryOp.addProducer a2.receiver_address self.flow_control_id none
        [a2.sender_address] ∈
      self.setup_flow_control_ops ((self.setup_flow_control fc a1 n1).2)
        a2 n2 := by
  constructor
  · rw [lookup_own_after_setup self fc a1 n1]
    simp
  · unfold UdpPunctureOptions.setup_flow_control_ops
    cases h : (((self.setup_flow_control fc a1
          n1).2).find_flow_control_with_producer_address n2).map
        (fun x => x.1) <;>
      simp [h]
